import Mathlib

/-!
Shallow embedding of the request-processing pipeline of the repository
(`core_ai_worker.py`, with the request type from `youtube_monitor.py` and its
construction in `app.py`).

Modelling conventions:
- Python dicts for cache entries become a structure with `Option` fields for
  keys that may be absent (`dict.get` returning `None` is `none`).
- The module-level globals `FAQ_CACHE`, `FAQ_EMBEDDINGS`, `EMBEDDER` become an
  explicit `WorkerState` threaded through the worker-loop functions.
- External collaborators (the embedding provider, `generate_response`,
  `synthesize_speech`) are oracles supplied per request: an `Except` models a
  call that may raise, an `Option` models a call whose failure is caught and
  swallowed at the call site.
- Similarity scores are rationals (the numpy cosine computation is abstracted
  into the vector-search oracle; only the comparison against the 0.75
  threshold and the exact-match value 1.0 are needed by the code paths here).
-/

/-- Characters matched by Python's `\s` on `str` (unicode whitespace),
as used by the regex in `normalize_text` and by `str.strip()`. -/
def isPythonSpace (c : Char) : Bool :=
  c = ' ' || c = '\t' || c = '\n' || c = '\r' || c = '\x0b' || c = '\x0c' ||
  c = '\x1c' || c = '\x1d' || c = '\x1e' || c = '\x1f' || c = '\x85' ||
  c = '\xa0' || c = ' ' || (' ' ≤ c && c ≤ ' ') ||
  c = ' ' || c = ' ' || c = ' ' || c = ' ' || c = '　'

/-- Character class of the regex in `core_ai_worker.normalize_text`
(line 20): `[…\.\?\!。？！\s\n\r　]`. -/
def isStripChar (c : Char) : Bool :=
  c = '…' || c = '.' || c = '?' || c = '!' || c = '。' || c = '？' ||
  c = '！' || c = '　' || isPythonSpace c

/-- Model of `core_ai_worker.normalize_text` (lines 16-20): empty input returns `""`;
otherwise every character of the class is removed (`re.sub(class+, '', text)`)
and the trailing `.strip()` is a no-op because every character it could strip
is already removed by the class. -/
def normalize_text (s : String) : String :=
  if s.isEmpty then "" else String.mk (s.data.filter (fun c => !(isStripChar c)))

/-- Substring test on the character lists, aux recursion. -/
def containsSubAux (pat : List Char) : List Char → Bool
  | [] => pat.isPrefixOf []
  | c :: rest => pat.isPrefixOf (c :: rest) || containsSubAux pat rest

/-- Python's `pat in s` substring containment on strings. -/
def containsSub (s pat : String) : Bool :=
  containsSubAux pat.data s.data

/-- Rejection-phrase list of `core_ai_worker._worker_loop` (lines 148 and 206). -/
def rejection_phrases : List String :=
  ["答えられません", "学習中", "エラー", "申し訳ありません"]

/-- Model of `any(rp in cached_ans for rp in rejection_phrases)` (lines 149 and 207). -/
def isRejected (ans : String) : Bool :=
  rejection_phrases.any (fun rp => containsSub ans rp)

/-- One element of `FAQ_CACHE`: a JSON object / dict. `question`, `emotion`,
`audio_b64`, `norm_key` and `source` are read with `.get` (absent key is
`none`); `response_text` is read both with `.get(..., "")` (screening, line
147) and by direct subscript (serving, line 167) — it is present on every
entry the pipeline writes, so it is modelled as a required field. -/
structure CacheEntry where
  question : Option String
  response_text : String
  emotion : Option String
  audio_b64 : Option String
  norm_key : Option String
  source : Option String
deriving DecidableEq, Repr

/-- The worker's global mutable state: `FAQ_CACHE`, `FAQ_EMBEDDINGS`
(`none` is Python `None`, i.e. never built), and whether `EMBEDDER` was
successfully constructed. -/
structure WorkerState where
  cache : List CacheEntry
  embeddings : Option (List (List ℚ))
  embedderAvailable : Bool
deriving DecidableEq, Repr

/-- Python truthiness of `item.get("question")` (line 91). -/
def hasTruthyQuestion (e : CacheEntry) : Bool :=
  match e.question with
  | some q => !q.isEmpty
  | none => false

/-- Number of cache entries with a (truthy) question. -/
def countQ (cache : List CacheEntry) : Nat :=
  (cache.filter hasTruthyQuestion).length

/-- Length of `FAQ_EMBEDDINGS` (0 when it is `None`). -/
def embLen (st : WorkerState) : Nat :=
  match st.embeddings with
  | some l => l.length
  | none => 0

/-- Startup embedding build, `_worker_loop` lines 85-96, success case: the
`EMBEDDER` is constructed and `embed_documents` succeeds, embedding the
questions of entries with a truthy `question`; with no questions the index
becomes the empty array. `embedDoc` is the per-question embedding produced by
the provider. -/
def buildIndex (st : WorkerState) (embedDoc : String → List ℚ) : WorkerState :=
  let questions := ((st.cache.filter hasTruthyQuestion).map
    (fun e => e.question.getD ""))
  if questions.isEmpty then
    { st with embedderAvailable := true, embeddings := some [] }
  else
    { st with embedderAvailable := true, embeddings := some (questions.map embedDoc) }

/-- Queue items as the worker reads them, duck-typed via `getattr`:
`message_text` (required, line 117), `author_name` (`getattr` default `""`,
line 183), `source` (`getattr` default `None`, line 109), and
`is_initial_greeting` (`getattr` default `False`, line 110) — `none` means
the attribute is absent on the enqueued object. -/
structure QueueItem where
  message_text : String
  author_name : Option String
  source : Option String
  is_initial_greeting : Option Bool
deriving DecidableEq, Repr

/-- Model of `is_system = getattr(item, "source", None) == "system"` (line 109). -/
def isSystem (item : QueueItem) : Bool :=
  item.source == some "system"

/-- Model of `is_greeting = getattr(item, "is_initial_greeting", False)` (line 110). -/
def isGreeting (item : QueueItem) : Bool :=
  item.is_initial_greeting.getD false

/-- Outcome of the in-loop cache check (lines 114-164): `serve i` is
`best_match_item = FAQ_CACHE[i]`, `flagRepair i` is `cache_to_repair = i`,
`miss` means neither was set. -/
inductive CacheCheck where
  | serve (i : Nat)
  | flagRepair (i : Nat)
  | miss
deriving DecidableEq, Repr

/-- First index whose `norm_key` equals the normalized query, aux recursion
over the list with a running index. -/
def findExactIdxAux (nq : String) : Nat → List CacheEntry → Option Nat
  | _, [] => none
  | n, e :: rest =>
    if e.norm_key == some nq then some n else findExactIdxAux nq (n + 1) rest

/-- The exact-match scan of lines 121-128: first entry whose `norm_key`
equals the normalized query (`cache_item.get("norm_key") == norm_query`;
an absent `norm_key` is `None` and never equals a string). -/
def findExactIdx (cache : List CacheEntry) (nq : String) : Option Nat :=
  findExactIdxAux nq 0 cache

/-- Rejection-phrase screening of lines 146-158, applied to the best match
`i` (taken when `max_sim >= 0.75`): flag for repair when the stored answer
contains a rejection phrase, else serve. An out-of-range index raises and is
caught by the handler at line 162, yielding the miss path. -/
def screenBest (cache : List CacheEntry) (i : Nat) : CacheCheck :=
  match cache[i]? with
  | some e => if isRejected e.response_text then CacheCheck.flagRepair i else CacheCheck.serve i
  | none => CacheCheck.miss

/-- Cache check of lines 117-161 given the vector-search oracle `vecSearch`
(the `(argmax index, max similarity)` of the numpy block at lines 132-142;
`none` models `embed_query` raising, caught at line 143). Stage 1 is the
exact scan (similarity forced to 1.0); stage 2 runs only when stage 1 found
nothing, the embedder exists and the index is non-empty. The 0.75 threshold
and screening of lines 146-158 follow. -/
def cacheCheck (st : WorkerState) (queryText : String)
    (vecSearch : Option (Nat × ℚ)) : CacheCheck :=
  let normQuery := normalize_text queryText
  match findExactIdx st.cache normQuery with
  | some i => screenBest st.cache i
  | none =>
    if st.embedderAvailable &&
        (match st.embeddings with
         | some l => decide (0 < l.length)
         | none => false) then
      match vecSearch with
      | some (i, s) => if (3 : ℚ)/4 ≤ s then screenBest st.cache i else CacheCheck.miss
      | none => CacheCheck.miss
    else CacheCheck.miss

/-- External-call outcomes supplied per dequeued request. `vecSearch` is the
result of the numpy argmax block (lines 132-142); `gen` models
`generate_response` (line 194, may raise); `synth` models `synthesize_speech`
(lines 173 and 200, may raise); `embedLearn` models `embed_query` on the
newly learned question (line 230, `none` when it raises — caught at 235). -/
structure Oracles where
  vecSearch : Option (Nat × ℚ)
  gen : Except String (String × String)
  synth : Except String String
  embedLearn : Option (List ℚ)

/-- Payload of a `{"type": "result", ...}` message (lines 177-185, 260-268). -/
structure ResultPayload where
  audio_b64 : Option String
  emotion : String
  response_text : String
  question : String
  author : String
  is_initial_greeting : Bool
deriving DecidableEq, Repr

/-- Messages put on the output queue, omitting the purely cosmetic
`debug` messages: `progress`, the terminal `result`, and `error`. -/
inductive Event where
  | progress (msg : String)
  | result (r : ResultPayload)
  | error (msg : String)
deriving DecidableEq, Repr

/-- Per-request outcome before the lookup flag is attached. -/
structure StepOut where
  state : WorkerState
  events : List Event
  genCalls : Nat
  synthCalls : Nat
deriving DecidableEq, Repr

/-- Per-request outcome of the dispatcher body, with ghost instrumentation:
`genCalls` counts `generate_response` invocations, `synthCalls` counts
`synthesize_speech` invocations, `lookupPerformed` records whether the cache
check of lines 114-164 ran. -/
structure ProcessOutcome where
  state : WorkerState
  events : List Event
  genCalls : Nat
  synthCalls : Nat
  lookupPerformed : Bool
deriving DecidableEq, Repr

/-- Python truthiness of `if not audio_b64` at line 171: the `.get` returned
`None` or the stored string is empty. -/
def lacksAudio (e : CacheEntry) : Bool :=
  match e.audio_b64 with
  | some a => a.isEmpty
  | none => true

/-- The `question` field of an emitted result:
`item.message_text if not is_system else "(起動挨拶)"` (lines 182 and 265). -/
def resultQuestion (item : QueueItem) : String :=
  if isSystem item then "(起動挨拶)" else item.message_text

/-- Guard of line 114: `if FAQ_CACHE and not is_system and not is_greeting`. -/
def doLookup (st : WorkerState) (item : QueueItem) : Bool :=
  !st.cache.isEmpty && !isSystem item && !isGreeting item

/-- Cache check as run by the dispatcher: performed only under the guard of
line 114, otherwise neither `best_match_item` nor `cache_to_repair` is set. -/
def dispatchCheck (st : WorkerState) (item : QueueItem) (o : Oracles) : CacheCheck :=
  if doLookup st item then cacheCheck st item.message_text o.vecSearch else CacheCheck.miss

/-- Append path of lines 217-236: a new `extra` entry is appended to
`FAQ_CACHE`; then, when the `EMBEDDER` exists, the question is embedded and
vstacked onto `FAQ_EMBEDDINGS` (initializing it when it was `None`); an
embedding failure is caught at line 235 and leaves the index unchanged.
`learnedEntry` is the dict literal of lines 219-226. -/
def learnedEntry (q reply emotion audio : String) : CacheEntry :=
  { question := some q, response_text := reply, emotion := some emotion,
    audio_b64 := some audio, norm_key := some (normalize_text q),
    source := some "extra" }

def learnStep (st : WorkerState) (q reply emotion audio : String)
    (embedResult : Option (List ℚ)) : WorkerState :=
  let cache' := st.cache ++ [learnedEntry q reply emotion audio]
  let embeddings' :=
    if st.embedderAvailable then
      match embedResult with
      | some v =>
        match st.embeddings with
        | some l => some (l ++ [v])
        | none => some [v]
      | none => st.embeddings
    else st.embeddings
  { st with cache := cache', embeddings := embeddings' }

/-- Result payload built from a matched cache entry on the serving path
(lines 167-185). -/
def servedPayload (item : QueueItem) (e : CacheEntry) : ResultPayload :=
  { audio_b64 := e.audio_b64, emotion := e.emotion.getD "Neutral",
    response_text := e.response_text, question := resultQuestion item,
    author := item.author_name.getD "", is_initial_greeting := isGreeting item }

/-- Result payload of the serving path when the audio was synthesized lazily:
the matched entry's text and emotion with the fresh audio. -/
def servedPayloadWith (item : QueueItem) (e : CacheEntry) (a : String) : ResultPayload :=
  { servedPayload item e with audio_b64 := some a }

/-- Serving path of lines 166-190 (`best_match_item` set): the reply, emotion
and audio come from the matched entry; when the entry has no (truthy) audio,
`synthesize_speech` is called lazily (line 173) — if it raises, the outer
handler at lines 272-274 emits the error message. The cache is not touched on
this path. An out-of-range index (unreachable from `cacheCheck`) likewise
surfaces via the outer handler. -/
def servePath (st : WorkerState) (item : QueueItem) (o : Oracles) (i : Nat) : StepOut :=
  match st.cache[i]? with
  | none => ⟨st, [Event.error "AI/TTS Error: list index out of range"], 0, 0⟩
  | some e =>
    if lacksAudio e then
      match o.synth with
      | Except.ok a =>
        ⟨st, [Event.result (servedPayloadWith item e a)], 0, 1⟩
      | Except.error m =>
        ⟨st, [Event.error ("AI/TTS Error: " ++ m)], 0, 1⟩
    else
      ⟨st, [Event.result (servedPayload item e)], 0, 0⟩

/-- Overwrite applied by the repair branch (lines 214-216): `response_text`,
`emotion` and `audio_b64` are replaced in place, the other keys stay. -/
def repairedEntry (e : CacheEntry) (reply emotion audio : String) : CacheEntry :=
  { e with response_text := reply, emotion := some emotion, audio_b64 := some audio }

/-- Repair branch of lines 211-216: the flagged entry is overwritten in place
only when its `source` differs from `"master"` (`.get("source") != "master"`);
a `master` entry is left untouched. -/
def repairEntry (st : WorkerState) (ci : Nat) (reply emotion audio : String) : WorkerState :=
  match st.cache[ci]? with
  | some e =>
    if e.source ≠ some "master" then
      { st with cache := st.cache.set ci (repairedEntry e reply emotion audio) }
    else st
  | none => st

/-- Generation path of lines 192-270 (`best_match_item` not set), with
`repairIdx` the `cache_to_repair` flag. `generate_response` then
`synthesize_speech` are called (a raise from either reaches the outer handler
of lines 272-274, which emits one error message). A valid (non-rejected)
answer on a cacheable request is then written back: repair-in-place for a
flagged non-`master` entry (lines 211-216), refusal for a flagged `master`
entry, else append-and-embed (lines 217-236). Finally one result is emitted
(lines 260-269). The async disk write (lines 239-257) does not touch the
in-memory state. -/
def genPath (st : WorkerState) (item : QueueItem) (o : Oracles)
    (repairIdx : Option Nat) : StepOut :=
  let evs0 : List Event := [Event.progress "Thinking..."]
  match o.gen with
  | Except.error m => ⟨st, evs0 ++ [Event.error ("AI/TTS Error: " ++ m)], 1, 0⟩
  | Except.ok (reply, emotion) =>
    let evs1 := evs0 ++ [Event.progress "Synthesizing voice..."]
    match o.synth with
    | Except.error m => ⟨st, evs1 ++ [Event.error ("AI/TTS Error: " ++ m)], 1, 1⟩
    | Except.ok audio =>
      let st' :=
        if !isSystem item && !isGreeting item && !isRejected reply then
          match repairIdx with
          | some ci => repairEntry st ci reply emotion audio
          | none => learnStep st item.message_text reply emotion audio o.embedLearn
        else st
      ⟨st', evs1 ++ [Event.result
        { audio_b64 := some audio, emotion := emotion, response_text := reply,
          question := resultQuestion item, author := item.author_name.getD "",
          is_initial_greeting := isGreeting item }], 1, 1⟩

/-- Attach the lookup-performed flag to a path outcome. -/
def StepOut.withLookup (so : StepOut) (b : Bool) : ProcessOutcome :=
  ⟨so.state, so.events, so.genCalls, so.synthCalls, b⟩

/-- One iteration of the dispatcher body for a dequeued item
(lines 106-275). -/
def processItem (st : WorkerState) (item : QueueItem) (o : Oracles) : ProcessOutcome :=
  StepOut.withLookup
    (match dispatchCheck st item o with
     | CacheCheck.serve i => servePath st item o i
     | CacheCheck.flagRepair i => genPath st item o (some i)
     | CacheCheck.miss => genPath st item o none)
    (doLookup st item)

/-- The dispatcher loop over a finite queue of requests with their oracle
outcomes (the `while not stop_event.is_set()` loop of lines 99-275): every
item is processed in order and the emitted events are concatenated; no
per-task outcome terminates the loop. -/
def workerRun : WorkerState → List (QueueItem × Oracles) → WorkerState × List Event
  | st, [] => (st, [])
  | st, (item, o) :: rest =>
    let out := processItem st item o
    let next := workerRun out.state rest
    (next.1, out.events ++ next.2)

/-- Number of `error` events in a trace. -/
def countErrors (evs : List Event) : Nat :=
  (evs.filter (fun e => match e with | Event.error _ => true | _ => false)).length

/-- Number of `result` events in a trace. -/
def countResults (evs : List Event) : Nat :=
  (evs.filter (fun e => match e with | Event.result _ => true | _ => false)).length

/-- Field names of the `ChatItem` dataclass (`youtube_monitor.py` lines
23-29): `message_text`, `author_name`, `source`, `created_at`. -/
def chatItemFields : List String :=
  ["message_text", "author_name", "source", "created_at"]

/-- Python dataclass keyword construction: `__init__` raises `TypeError` when
a keyword argument is not a declared field. -/
def buildChatItem (kwargs : List String) : Except String Unit :=
  if kwargs.all (fun k => chatItemFields.contains k) then Except.ok ()
  else Except.error "TypeError: __init__() got an unexpected keyword argument"

/-- Keyword arguments of the level-3 greeting construction in `app.py`
lines 428-433: `ChatItem(message_text=..., author_name=..., source=...,
is_initial_greeting=True)`. -/
def greetingCallKwargs : List String :=
  ["message_text", "author_name", "source", "is_initial_greeting"]

/-- The `ChatItem` dataclass value (`created_at` omitted: wall-clock time). -/
structure ChatItem where
  message_text : String
  author_name : String
  source : String
deriving DecidableEq, Repr

/-- How the worker sees an enqueued `ChatItem` through `getattr`: the three
declared attributes are present; `is_initial_greeting` is absent. -/
def ChatItem.toQueueItem (c : ChatItem) : QueueItem :=
  { message_text := c.message_text, author_name := some c.author_name,
    source := some c.source, is_initial_greeting := none }

/-! Helper lemmas about the exact-match scan. -/

theorem findExactIdxAux_eq_none (nq : String) (n : Nat) (l : List CacheEntry)
    (h : ∀ e ∈ l, e.norm_key ≠ some nq) : findExactIdxAux nq n l = none := by
  induction l generalizing n with
  | nil => rfl
  | cons e rest ih =>
    simp only [findExactIdxAux]
    rw [if_neg, ih]
    · intro e' he'
      exact h e' (List.mem_cons_of_mem _ he')
    · simp only [beq_iff_eq]
      exact h e (List.mem_cons_self _ _)

theorem findExactIdxAux_append (nq : String) (n : Nat) (l l' : List CacheEntry)
    (h : ∀ e ∈ l, e.norm_key ≠ some nq) :
    findExactIdxAux nq n (l ++ l') = findExactIdxAux nq (n + l.length) l' := by
  induction l generalizing n with
  | nil => simp
  | cons e rest ih =>
    have hne : (e.norm_key == some nq) = false := by
      simp only [beq_eq_false_iff_ne]
      exact h e (List.mem_cons_self _ _)
    have step : findExactIdxAux nq n ((e :: rest) ++ l')
        = findExactIdxAux nq (n + 1) (rest ++ l') := by
      simp only [List.cons_append, findExactIdxAux, hne, Bool.false_eq_true, if_false]
      rfl
    rw [step, ih (n + 1) (fun e' he' => h e' (List.mem_cons_of_mem _ he'))]
    simp only [List.length_cons]
    have harith : n + 1 + rest.length = n + (rest.length + 1) := by omega
    rw [harith]

theorem findExactIdxAux_some (nq : String) (n : Nat) (l : List CacheEntry) (i : Nat)
    (h : findExactIdxAux nq n l = some i) :
    ∃ j e, i = n + j ∧ l[j]? = some e ∧ e.norm_key = some nq := by
  induction l generalizing n with
  | nil => simp [findExactIdxAux] at h
  | cons e rest ih =>
    by_cases hc : e.norm_key = some nq
    · refine ⟨0, e, ?_, by simp, hc⟩
      simp only [findExactIdxAux, beq_iff_eq, if_pos hc, Option.some_inj] at h
      omega
    · simp only [findExactIdxAux, beq_iff_eq, if_neg hc] at h
      obtain ⟨j, e', hij, hg, hk⟩ := ih (n + 1) h
      exact ⟨j + 1, e', by omega, by simpa using hg, hk⟩

theorem findExactIdx_some (cache : List CacheEntry) (nq : String) (i : Nat)
    (h : findExactIdx cache nq = some i) :
    ∃ e, cache[i]? = some e ∧ e.norm_key = some nq := by
  obtain ⟨j, e, hij, hg, hk⟩ := findExactIdxAux_some nq 0 cache i h
  exact ⟨e, by simpa [hij] using hg, hk⟩

theorem findExactIdxAux_isSome_iff (nq : String) (n : Nat) (l : List CacheEntry) :
    (findExactIdxAux nq n l).isSome = true ↔ ∃ e ∈ l, e.norm_key = some nq := by
  induction l generalizing n with
  | nil => simp [findExactIdxAux]
  | cons e rest ih =>
    by_cases hc : e.norm_key = some nq
    · simp [findExactIdxAux, beq_iff_eq, hc]
    · simp only [findExactIdxAux, beq_iff_eq, if_neg hc, List.mem_cons]
      rw [ih (n + 1)]
      constructor
      · rintro ⟨e', he', hk⟩
        exact ⟨e', Or.inr he', hk⟩
      · rintro ⟨e', he' | he', hk⟩
        · exact absurd (he' ▸ hk) hc
        · exact ⟨e', he', hk⟩

theorem cacheCheck_exact (st : WorkerState) (q : String) (v : Option (Nat × ℚ)) (i : Nat)
    (h : findExactIdx st.cache (normalize_text q) = some i) :
    cacheCheck st q v = screenBest st.cache i := by
  simp only [cacheCheck, h]

/-! Helper lemmas about the per-request paths. -/

theorem servePath_state (st : WorkerState) (item : QueueItem) (o : Oracles) (i : Nat) :
    (servePath st item o i).state = st := by
  unfold servePath
  cases st.cache[i]? with
  | none => rfl
  | some e =>
    by_cases hl : lacksAudio e
    · cases o.synth <;> simp [hl]
    · simp [hl]

theorem repairEntry_preserves_master (st : WorkerState) (ci : Nat)
    (reply emotion audio : String) (i : Nat) (e : CacheEntry)
    (hi : st.cache[i]? = some e) (hm : e.source = some "master") :
    (repairEntry st ci reply emotion audio).cache[i]? = some e := by
  unfold repairEntry
  split
  · rename_i e0 hci
    by_cases hsrc : e0.source = some "master"
    · rw [if_neg (fun hne => hne hsrc)]
      exact hi
    · rw [if_pos hsrc]
      have hne : ci ≠ i := by
        intro hEq
        subst hEq
        rw [hci] at hi
        exact hsrc (by rw [Option.some_inj.mp hi]; exact hm)
      simp only [List.getElem?_set_ne hne]
      exact hi
  · exact hi

theorem learnStep_preserves_entry (st : WorkerState) (q reply emotion audio : String)
    (eo : Option (List ℚ)) (i : Nat) (e : CacheEntry)
    (hi : st.cache[i]? = some e) :
    (learnStep st q reply emotion audio eo).cache[i]? = some e := by
  have hlen : i < st.cache.length := by
    rcases List.getElem?_eq_some.mp hi with ⟨h, _⟩
    exact h
  simp only [learnStep]
  rw [List.getElem?_append_left hlen]
  exact hi

theorem genPath_preserves_entry (st : WorkerState) (item : QueueItem) (o : Oracles)
    (ri : Option Nat) (i : Nat) (e : CacheEntry)
    (hi : st.cache[i]? = some e) (hm : e.source = some "master") :
    (genPath st item o ri).state.cache[i]? = some e := by
  unfold genPath
  cases hg : o.gen with
  | error m => simpa using hi
  | ok pr =>
    cases hs : o.synth with
    | error m => simpa using hi
    | ok audio =>
      by_cases hcond : (!isSystem item && !isGreeting item && !isRejected pr.1) = true
      · simp only [hcond, if_true]
        cases ri with
        | none => exact learnStep_preserves_entry st item.message_text pr.1 pr.2 audio o.embedLearn i e hi
        | some ci => exact repairEntry_preserves_master st ci pr.1 pr.2 audio i e hi hm
      · simp only [hcond, if_false]
        exact hi

theorem processItem_preserves_master (st : WorkerState) (item : QueueItem) (o : Oracles)
    (i : Nat) (e : CacheEntry)
    (hi : st.cache[i]? = some e) (hm : e.source = some "master") :
    (processItem st item o).state.cache[i]? = some e := by
  unfold processItem
  cases dispatchCheck st item o with
  | serve j => simpa [StepOut.withLookup, servePath_state] using hi
  | flagRepair j => exact genPath_preserves_entry st item o (some j) i e hi hm
  | miss => exact genPath_preserves_entry st item o none i e hi hm

/-! Evaluation lemmas for the per-request paths. -/

theorem processItem_serve (st : WorkerState) (item : QueueItem) (o : Oracles) (i : Nat)
    (hc : dispatchCheck st item o = CacheCheck.serve i) :
    processItem st item o = StepOut.withLookup (servePath st item o i) (doLookup st item) := by
  unfold processItem
  rw [hc]

theorem processItem_flagRepair (st : WorkerState) (item : QueueItem) (o : Oracles) (i : Nat)
    (hc : dispatchCheck st item o = CacheCheck.flagRepair i) :
    processItem st item o = StepOut.withLookup (genPath st item o (some i)) (doLookup st item) := by
  unfold processItem
  rw [hc]

theorem processItem_miss (st : WorkerState) (item : QueueItem) (o : Oracles)
    (hc : dispatchCheck st item o = CacheCheck.miss) :
    processItem st item o = StepOut.withLookup (genPath st item o none) (doLookup st item) := by
  unfold processItem
  rw [hc]

theorem servePath_hasAudio (st : WorkerState) (item : QueueItem) (o : Oracles) (i : Nat)
    (e : CacheEntry) (hi : st.cache[i]? = some e) (hl : lacksAudio e = false) :
    servePath st item o i = ⟨st, [Event.result (servedPayload item e)], 0, 0⟩ := by
  unfold servePath
  rw [hi]
  simp [hl]

theorem servePath_lazy_ok (st : WorkerState) (item : QueueItem) (o : Oracles) (i : Nat)
    (e : CacheEntry) (a : String)
    (hi : st.cache[i]? = some e) (hl : lacksAudio e = true) (hs : o.synth = Except.ok a) :
    servePath st item o i = ⟨st, [Event.result (servedPayloadWith item e a)], 0, 1⟩ := by
  unfold servePath
  rw [hi]
  simp [hl, hs]

theorem servePath_lazy_err (st : WorkerState) (item : QueueItem) (o : Oracles) (i : Nat)
    (e : CacheEntry) (m : String)
    (hi : st.cache[i]? = some e) (hl : lacksAudio e = true) (hs : o.synth = Except.error m) :
    servePath st item o i = ⟨st, [Event.error ("AI/TTS Error: " ++ m)], 0, 1⟩ := by
  unfold servePath
  rw [hi]
  simp [hl, hs]

theorem genPath_gen_err (st : WorkerState) (item : QueueItem) (o : Oracles)
    (ri : Option Nat) (m : String) (hg : o.gen = Except.error m) :
    genPath st item o ri =
      ⟨st, [Event.progress "Thinking...", Event.error ("AI/TTS Error: " ++ m)], 1, 0⟩ := by
  unfold genPath
  rw [hg]
  rfl

theorem genPath_synth_err (st : WorkerState) (item : QueueItem) (o : Oracles)
    (ri : Option Nat) (reply emotion m : String)
    (hg : o.gen = Except.ok (reply, emotion)) (hs : o.synth = Except.error m) :
    genPath st item o ri =
      ⟨st, [Event.progress "Thinking...", Event.progress "Synthesizing voice...",
        Event.error ("AI/TTS Error: " ++ m)], 1, 1⟩ := by
  unfold genPath
  rw [hg, hs]
  rfl

theorem genPath_state_uncacheable (st : WorkerState) (item : QueueItem) (o : Oracles)
    (ri : Option Nat) (hu : (isSystem item || isGreeting item) = true) :
    (genPath st item o ri).state = st := by
  unfold genPath
  cases hg : o.gen with
  | error m => rfl
  | ok pr =>
    cases hs : o.synth with
    | error m => rfl
    | ok audio =>
      have hb : (!isSystem item && !isGreeting item && !isRejected pr.1) = false := by
        cases hS : isSystem item <;> cases hG : isGreeting item <;> simp_all
      simp only [hb, Bool.false_eq_true, if_false]

/-! Claim C1. -/

def c1Entry : CacheEntry :=
  { question := some "税制について", response_text := "申し訳ありませんが答えられません。",
    emotion := some "Neutral", audio_b64 := some "QVVESU8=",
    norm_key := some (normalize_text "税制について"), source := some "master" }

def c1State : WorkerState :=
  { cache := [c1Entry], embeddings := none, embedderAvailable := false }

def c1Item : QueueItem :=
  { message_text := "税制について", author_name := some "視聴者",
    source := some "direct", is_initial_greeting := none }

def c1Oracle : Oracles :=
  { vecSearch := none, gen := Except.ok ("税制の説明です", "Neutral"),
    synth := Except.ok "QQ==", embedLearn := none }

/-- Counterexample to claim C1: with a loaded entry whose `normalizedKey`
equals the normalized question but whose stored answer contains a rejection
phrase, the exact-match scan does find the entry (index 0), yet the cache
check applies the rejection-phrase screening to it and flags it for repair
instead of serving it, and the dispatcher then invokes the generator —
contradicting "the entry is served without rejection-phrase screening". -/
theorem c1_exact_hit_screened_cex :
    findExactIdx c1State.cache (normalize_text "税制について") = some 0 ∧
    isRejected c1Entry.response_text = true ∧
    cacheCheck c1State "税制について" none = CacheCheck.flagRepair 0 ∧
    CacheCheck.flagRepair 0 ≠ CacheCheck.serve 0 ∧
    (processItem c1State c1Item c1Oracle).genCalls = 1 := by
  refine ⟨by decide, by decide, by decide, by decide, by decide⟩

/-- Claim C1 (amended): an exact normalized-key match short-circuits the
embedding path — the cache-check outcome is independent of the vector-search
oracle — but the matched entry is then subject to the same rejection-phrase
screening as the similarity path: it is served only when its stored answer
contains no rejection phrase, and flagged for repair otherwise. -/
theorem c1_exact_hit_screened (st : WorkerState) (q : String) (v : Option (Nat × ℚ))
    (i : Nat) (e : CacheEntry)
    (hx : findExactIdx st.cache (normalize_text q) = some i)
    (he : st.cache[i]? = some e) :
    cacheCheck st q v = cacheCheck st q none ∧
    cacheCheck st q v =
      (if isRejected e.response_text then CacheCheck.flagRepair i else CacheCheck.serve i) := by
  have h1 := cacheCheck_exact st q v i hx
  have h2 := cacheCheck_exact st q none i hx
  refine ⟨by rw [h1, h2], ?_⟩
  rw [h1]
  simp only [screenBest, he]

/-- Witness for the amended C1 at the concrete rejected `master` entry. -/
theorem c1_exact_hit_screened_witness :
    findExactIdx c1State.cache (normalize_text "税制について") = some 0 ∧
    c1State.cache[0]? = some c1Entry ∧
    cacheCheck c1State "税制について" (some (0, 1)) = cacheCheck c1State "税制について" none ∧
    cacheCheck c1State "税制について" (some (0, 1)) =
      (if isRejected c1Entry.response_text then CacheCheck.flagRepair 0 else CacheCheck.serve 0) :=
  ⟨by decide, by decide,
   (c1_exact_hit_screened c1State "税制について" (some (0, 1)) 0 c1Entry (by decide) (by decide)).1,
   (c1_exact_hit_screened c1State "税制について" (some (0, 1)) 0 c1Entry (by decide) (by decide)).2⟩

/-! Claim C2. -/

def c2Master : CacheEntry :=
  { question := some "島の歴史は？", response_text := "エラーが発生しました",
    emotion := some "Neutral", audio_b64 := some "QQ==",
    norm_key := some (normalize_text "島の歴史は？"), source := some "master" }

def c2State : WorkerState :=
  { cache := [c2Master], embeddings := none, embedderAvailable := false }

def c2Item : QueueItem :=
  { message_text := "島の歴史は？", author_name := some "視聴者",
    source := some "direct", is_initial_greeting := none }

def c2Oracle : Oracles :=
  { vecSearch := none, gen := Except.ok ("島の歴史は長いです", "Joy"),
    synth := Except.ok "Qg==", embedLearn := none }

/-- Claim C2: an entry whose `source` is `"master"` (Primary provenance) is
returned unchanged — every field — by any sequence of dispatcher iterations,
whatever repair and learn operations they perform, even when its answer text
contains a rejection phrase (repair on such an entry is refused). -/
theorem c2_primary_never_mutated (st : WorkerState) (tasks : List (QueueItem × Oracles))
    (i : Nat) (e : CacheEntry)
    (hi : st.cache[i]? = some e) (hm : e.source = some "master") :
    (workerRun st tasks).1.cache[i]? = some e := by
  induction tasks generalizing st with
  | nil => simpa [workerRun] using hi
  | cons t rest ih =>
    obtain ⟨item, o⟩ := t
    simp only [workerRun]
    exact ih (processItem st item o).state (processItem_preserves_master st item o i e hi hm)

/-- Witness for C2: a rejected `master` entry survives two dispatcher
iterations that exact-hit it, flag it for repair, and regenerate. -/
theorem c2_primary_never_mutated_witness :
    c2State.cache[0]? = some c2Master ∧ c2Master.source = some "master" ∧
    (workerRun c2State [(c2Item, c2Oracle), (c2Item, c2Oracle)]).1.cache[0]? = some c2Master :=
  ⟨by decide, by decide,
   c2_primary_never_mutated c2State [(c2Item, c2Oracle), (c2Item, c2Oracle)] 0 c2Master
     (by decide) (by decide)⟩

/-! Claim C3. -/

/-- Whether a call that may raise did raise. -/
def exceptFailed {α : Type} (x : Except String α) : Bool :=
  match x with
  | Except.error _ => true
  | Except.ok _ => false

/-- Condition "the generation or synthesis step of this request fails": on the
serving path the only external call is the lazy synthesis (when the matched
entry lacks audio); on the generation path a raise from `generate_response`
or from `synthesize_speech` reaches the outer handler. -/
def stepFails (st : WorkerState) (item : QueueItem) (o : Oracles) : Bool :=
  match dispatchCheck st item o with
  | CacheCheck.serve i =>
    match st.cache[i]? with
    | some e => lacksAudio e && exceptFailed o.synth
    | none => false
  | _ => exceptFailed o.gen || exceptFailed o.synth

/-- Claim C3: a request whose generation or synthesis step fails produces
exactly one `Error` event and no `Result` event, and the dispatcher loop
continues: the trace of a queue starting with the failing request is the
failing request's events followed by the full processing of the rest. -/
theorem c3_failure_isolated (st : WorkerState) (item : QueueItem) (o : Oracles)
    (rest : List (QueueItem × Oracles))
    (hf : stepFails st item o = true) :
    countErrors (processItem st item o).events = 1 ∧
    countResults (processItem st item o).events = 0 ∧
    (workerRun st ((item, o) :: rest)).2 =
      (processItem st item o).events ++ (workerRun (processItem st item o).state rest).2 := by
  have hcont : (workerRun st ((item, o) :: rest)).2 =
      (processItem st item o).events ++ (workerRun (processItem st item o).state rest).2 := by
    simp [workerRun]
  unfold stepFails at hf
  cases hc : dispatchCheck st item o with
  | serve i =>
    rw [hc] at hf
    have hf' : (match st.cache[i]? with
        | some e => lacksAudio e && exceptFailed o.synth
        | none => false) = true := hf
    cases hi : st.cache[i]? with
    | none =>
      rw [hi] at hf'
      simp at hf'
    | some e =>
      rw [hi] at hf'
      rw [Bool.and_eq_true] at hf'
      obtain ⟨hl, hsf⟩ := hf'
      cases hs : o.synth with
      | ok a =>
        rw [hs] at hsf
        simp [exceptFailed] at hsf
      | error m =>
        have hev : (processItem st item o).events = [Event.error ("AI/TTS Error: " ++ m)] := by
          rw [processItem_serve st item o i hc, servePath_lazy_err st item o i e m hi hl hs]
          rfl
        exact ⟨by rw [hev]; rfl, by rw [hev]; rfl, hcont⟩
  | flagRepair i =>
    rw [hc] at hf
    have hf' : (exceptFailed o.gen || exceptFailed o.synth) = true := hf
    cases hg : o.gen with
    | error m =>
      have hev : (processItem st item o).events =
          [Event.progress "Thinking...", Event.error ("AI/TTS Error: " ++ m)] := by
        rw [processItem_flagRepair st item o i hc, genPath_gen_err st item o (some i) m hg]
        rfl
      exact ⟨by rw [hev]; rfl, by rw [hev]; rfl, hcont⟩
    | ok pr =>
      have hsf : exceptFailed o.synth = true := by
        rw [hg] at hf'
        simpa [exceptFailed] using hf'
      cases hs : o.synth with
      | ok a =>
        rw [hs] at hsf
        simp [exceptFailed] at hsf
      | error m =>
        have hev : (processItem st item o).events =
            [Event.progress "Thinking...", Event.progress "Synthesizing voice...",
              Event.error ("AI/TTS Error: " ++ m)] := by
          rw [processItem_flagRepair st item o i hc,
            genPath_synth_err st item o (some i) pr.1 pr.2 m (by rw [hg]) hs]
          rfl
        exact ⟨by rw [hev]; rfl, by rw [hev]; rfl, hcont⟩
  | miss =>
    rw [hc] at hf
    have hf' : (exceptFailed o.gen || exceptFailed o.synth) = true := hf
    cases hg : o.gen with
    | error m =>
      have hev : (processItem st item o).events =
          [Event.progress "Thinking...", Event.error ("AI/TTS Error: " ++ m)] := by
        rw [processItem_miss st item o hc, genPath_gen_err st item o none m hg]
        rfl
      exact ⟨by rw [hev]; rfl, by rw [hev]; rfl, hcont⟩
    | ok pr =>
      have hsf : exceptFailed o.synth = true := by
        rw [hg] at hf'
        simpa [exceptFailed] using hf'
      cases hs : o.synth with
      | ok a =>
        rw [hs] at hsf
        simp [exceptFailed] at hsf
      | error m =>
        have hev : (processItem st item o).events =
            [Event.progress "Thinking...", Event.progress "Synthesizing voice...",
              Event.error ("AI/TTS Error: " ++ m)] := by
          rw [processItem_miss st item o hc,
            genPath_synth_err st item o none pr.1 pr.2 m (by rw [hg]) hs]
          rfl
        exact ⟨by rw [hev]; rfl, by rw [hev]; rfl, hcont⟩

def c3Item : QueueItem :=
  { message_text := "明日の天気は？", author_name := some "視聴者",
    source := some "direct", is_initial_greeting := none }

def c3Oracle : Oracles :=
  { vecSearch := none, gen := Except.error "Gemini API Error",
    synth := Except.ok "QQ==", embedLearn := none }

def c3OkOracle : Oracles :=
  { vecSearch := none, gen := Except.ok ("晴れです", "Joy"),
    synth := Except.ok "Qg==", embedLearn := none }

def c3State : WorkerState :=
  { cache := [], embeddings := none, embedderAvailable := false }

/-- Witness for C3: a failing generation on an empty cache emits one error
and no result, and the following request is still processed. -/
theorem c3_failure_isolated_witness :
    stepFails c3State c3Item c3Oracle = true ∧
    countErrors (processItem c3State c3Item c3Oracle).events = 1 ∧
    countResults (processItem c3State c3Item c3Oracle).events = 0 ∧
    (workerRun c3State [(c3Item, c3Oracle), (c3Item, c3OkOracle)]).2 =
      (processItem c3State c3Item c3Oracle).events ++
        (workerRun (processItem c3State c3Item c3Oracle).state [(c3Item, c3OkOracle)]).2 :=
  ⟨by decide,
   (c3_failure_isolated c3State c3Item c3Oracle [(c3Item, c3OkOracle)] (by decide)).1,
   (c3_failure_isolated c3State c3Item c3Oracle [(c3Item, c3OkOracle)] (by decide)).2.1,
   (c3_failure_isolated c3State c3Item c3Oracle [(c3Item, c3OkOracle)] (by decide)).2.2⟩

/-! Claim C4. -/

def c4Entry : CacheEntry :=
  { question := some "海について", response_text := "海はとても広いです",
    emotion := some "Joy", audio_b64 := none,
    norm_key := some (normalize_text "海について"), source := some "master" }

def c4State : WorkerState :=
  { cache := [c4Entry], embeddings := none, embedderAvailable := false }

def c4Item : QueueItem :=
  { message_text := "海について", author_name := some "視聴者",
    source := some "direct", is_initial_greeting := none }

def c4FailOracle : Oracles :=
  { vecSearch := none, gen := Except.error "gen down",
    synth := Except.error "tts down", embedLearn := none }

def c4OkOracle : Oracles :=
  { vecSearch := none, gen := Except.error "gen down",
    synth := Except.ok "QXVkaW8=", embedLearn := none }

/-- Counterexample to claim C4: a cache hit on an entry with a non-rejected
answer but no stored audio, where the lazy synthesis raises, yields an
`Error` event and no `Result` — the claim's unconditional "emits a Result
built from the cached entry" fails (the generator is still never invoked). -/
theorem c4_hit_short_circuits_cex :
    dispatchCheck c4State c4Item c4FailOracle = CacheCheck.serve 0 ∧
    isRejected c4Entry.response_text = false ∧
    countResults (processItem c4State c4Item c4FailOracle).events = 0 ∧
    countErrors (processItem c4State c4Item c4FailOracle).events = 1 ∧
    (processItem c4State c4Item c4FailOracle).genCalls = 0 := by
  refine ⟨by decide, by decide, by decide, by decide, by decide⟩

/-- Claim C4 (amended): on a cache hit with a non-rejected answer the
dispatcher never invokes the generator; the synthesizer is invoked exactly
when the matched entry lacks audio; a `Result` built from the cached entry is
emitted when no lazy synthesis is needed or when it succeeds, while a failing
lazy synthesis yields an `Error` instead of a `Result`. -/
theorem c4_hit_short_circuits (st : WorkerState) (item : QueueItem) (o : Oracles)
    (i : Nat) (e : CacheEntry)
    (hc : dispatchCheck st item o = CacheCheck.serve i)
    (he : st.cache[i]? = some e) :
    (processItem st item o).genCalls = 0 ∧
    (processItem st item o).synthCalls = (if lacksAudio e then 1 else 0) ∧
    (lacksAudio e = false →
      (processItem st item o).events = [Event.result (servedPayload item e)]) ∧
    (∀ a, lacksAudio e = true → o.synth = Except.ok a →
      (processItem st item o).events = [Event.result (servedPayloadWith item e a)]) ∧
    (∀ m, lacksAudio e = true → o.synth = Except.error m →
      countResults (processItem st item o).events = 0 ∧
      countErrors (processItem st item o).events = 1) := by
  have hp := processItem_serve st item o i hc
  by_cases hl : lacksAudio e = true
  · cases hs : o.synth with
    | ok a =>
      have hsv := servePath_lazy_ok st item o i e a he hl hs
      refine ⟨by rw [hp, hsv]; rfl, by rw [hp, hsv, if_pos hl]; rfl, ?_, ?_, ?_⟩
      · intro hl'
        rw [hl] at hl'
        cases hl'
      · intro a' _ hs'
        cases hs'
        rw [hp, hsv]
        rfl
      · intro m _ hs'
        simp at hs'
    | error m =>
      have hsv := servePath_lazy_err st item o i e m he hl hs
      refine ⟨by rw [hp, hsv]; rfl, by rw [hp, hsv, if_pos hl]; rfl, ?_, ?_, ?_⟩
      · intro hl'
        rw [hl] at hl'
        cases hl'
      · intro a' _ hs'
        simp at hs'
      · intro m' _ hs'
        cases hs'
        exact ⟨by rw [hp, hsv]; rfl, by rw [hp, hsv]; rfl⟩
  · have hl' : lacksAudio e = false := by
      cases hq : lacksAudio e
      · rfl
      · exact absurd hq hl
    have hsv := servePath_hasAudio st item o i e he hl'
    refine ⟨by rw [hp, hsv]; rfl, by rw [hp, hsv, if_neg hl]; rfl, ?_, ?_, ?_⟩
    · intro _
      rw [hp, hsv]
      rfl
    · intro a ha _
      rw [hl'] at ha
      cases ha
    · intro m ha _
      rw [hl'] at ha
      cases ha

/-- Witness for the amended C4: the hit on the audio-less entry with a
succeeding synthesizer emits the result with fresh audio, zero generator
calls and one synthesis call. -/
theorem c4_hit_short_circuits_witness :
    dispatchCheck c4State c4Item c4OkOracle = CacheCheck.serve 0 ∧
    c4State.cache[0]? = some c4Entry ∧
    (processItem c4State c4Item c4OkOracle).genCalls = 0 ∧
    (processItem c4State c4Item c4OkOracle).synthCalls = (if lacksAudio c4Entry then 1 else 0) ∧
    (processItem c4State c4Item c4OkOracle).events =
      [Event.result (servedPayloadWith c4Item c4Entry "QXVkaW8=")] :=
  ⟨by decide, by decide,
   (c4_hit_short_circuits c4State c4Item c4OkOracle 0 c4Entry (by decide) (by decide)).1,
   (c4_hit_short_circuits c4State c4Item c4OkOracle 0 c4Entry (by decide) (by decide)).2.1,
   (c4_hit_short_circuits c4State c4Item c4OkOracle 0 c4Entry (by decide) (by decide)).2.2.2.1
     "QXVkaW8=" (by decide) rfl⟩

/-! Claim C5. -/

def c5Entry : CacheEntry :=
  { question := some "自己紹介して", response_text := "さくぐちです",
    emotion := some "Joy", audio_b64 := some "QQ==",
    norm_key := some (normalize_text "自己紹介して"), source := some "master" }

def c5State : WorkerState :=
  { cache := [c5Entry], embeddings := some [[1]], embedderAvailable := true }

def c5Item : QueueItem :=
  { message_text := "自己紹介して", author_name := some "システム",
    source := some "system", is_initial_greeting := none }

def c5GreetItem : QueueItem :=
  { message_text := "自己紹介して", author_name := some "システム",
    source := some "direct", is_initial_greeting := some true }

def c5Oracle : Oracles :=
  { vecSearch := some (0, 1), gen := Except.ok ("こんにちは、さくぐちです", "Joy"),
    synth := Except.ok "Qg==", embedLearn := some [2] }

/-- Claim C5: a request with system origin or with the bootstrap-greeting
flag set performs no cache lookup and leaves the worker state — the cache
entry list and the embedding index — exactly unchanged, whatever the
generation, synthesis and embedding oracles return. -/
theorem c5_system_requests_skip_cache (st : WorkerState) (item : QueueItem) (o : Oracles)
    (hu : (isSystem item || isGreeting item) = true) :
    (processItem st item o).lookupPerformed = false ∧
    (processItem st item o).state = st := by
  have hdl : doLookup st item = false := by
    unfold doLookup
    cases hS : isSystem item <;> cases hG : isGreeting item <;> simp_all
  have hdc : dispatchCheck st item o = CacheCheck.miss := by
    unfold dispatchCheck
    rw [hdl]
    rfl
  rw [processItem_miss st item o hdc]
  refine ⟨by rw [hdl]; rfl, ?_⟩
  have hst := genPath_state_uncacheable st item o none hu
  simpa [StepOut.withLookup] using hst

/-- Witness for C5 on a system request (and the model of a greeting-flagged
one): the state with one entry and one index vector is untouched. -/
theorem c5_system_requests_skip_cache_witness :
    (isSystem c5Item || isGreeting c5Item) = true ∧
    (isSystem c5GreetItem || isGreeting c5GreetItem) = true ∧
    (processItem c5State c5Item c5Oracle).lookupPerformed = false ∧
    (processItem c5State c5Item c5Oracle).state = c5State ∧
    (processItem c5State c5GreetItem c5Oracle).lookupPerformed = false ∧
    (processItem c5State c5GreetItem c5Oracle).state = c5State :=
  ⟨by decide, by decide,
   (c5_system_requests_skip_cache c5State c5Item c5Oracle (by decide)).1,
   (c5_system_requests_skip_cache c5State c5Item c5Oracle (by decide)).2,
   (c5_system_requests_skip_cache c5State c5GreetItem c5Oracle (by decide)).1,
   (c5_system_requests_skip_cache c5State c5GreetItem c5Oracle (by decide)).2⟩

/-! Claim C6. -/

def c6OldEntry : CacheEntry :=
  { question := some "こんにちは", response_text := "やあ、こんにちは",
    emotion := some "Joy", audio_b64 := some "QQ==",
    norm_key := some (normalize_text "こんにちは"), source := some "extra" }

def c6State : WorkerState :=
  { cache := [c6OldEntry], embeddings := none, embedderAvailable := false }

/-- Counterexample to claim C6: when the cache already holds an entry whose
`normalizedKey` equals the learned question's key, a lookup right after
`learn` exact-hits the pre-existing entry at index 0, not the newly learned
entry at index 1 — the scan returns the first match. -/
theorem c6_learn_then_lookup_cex :
    (learnStep c6State "こんにちは" "新しい答えです" "Neutral" "Qg==" none).cache.length = 2 ∧
    findExactIdx (learnStep c6State "こんにちは" "新しい答えです" "Neutral" "Qg==" none).cache
      (normalize_text "こんにちは") = some 0 ∧
    cacheCheck (learnStep c6State "こんにちは" "新しい答えです" "Neutral" "Qg==" none)
      "こんにちは" none = CacheCheck.serve 0 ∧
    (0 : Nat) ≠ 1 := by
  refine ⟨by decide, by decide, by decide, by decide⟩

/-- Claim C6 (amended): provided no loaded entry already has the question's
normalized key, `learn` followed by `lookup` on the identical question
exact-hits the newly learned entry (the last index), and serves it when the
learned answer contains no rejection phrase. -/
theorem c6_learn_then_lookup (st : WorkerState) (q reply emo audio : String)
    (eo : Option (List ℚ)) (v : Option (Nat × ℚ))
    (hnew : ∀ e ∈ st.cache, e.norm_key ≠ some (normalize_text q)) :
    findExactIdx (learnStep st q reply emo audio eo).cache (normalize_text q) =
      some st.cache.length ∧
    (learnStep st q reply emo audio eo).cache[st.cache.length]? =
      some (learnedEntry q reply emo audio) ∧
    (isRejected reply = false →
      cacheCheck (learnStep st q reply emo audio eo) q v =
        CacheCheck.serve st.cache.length) := by
  have hcache : (learnStep st q reply emo audio eo).cache =
      st.cache ++ [learnedEntry q reply emo audio] := rfl
  have hfind : findExactIdx (learnStep st q reply emo audio eo).cache (normalize_text q) =
      some st.cache.length := by
    rw [hcache]
    unfold findExactIdx
    rw [findExactIdxAux_append (normalize_text q) 0 st.cache _ hnew]
    simp [findExactIdxAux, learnedEntry]
  have hget : (learnStep st q reply emo audio eo).cache[st.cache.length]? =
      some (learnedEntry q reply emo audio) := by
    rw [hcache]
    exact List.getElem?_concat_length st.cache _
  refine ⟨hfind, hget, ?_⟩
  intro hrej
  rw [cacheCheck_exact _ q v st.cache.length hfind]
  simp only [screenBest, hget, learnedEntry, hrej, Bool.false_eq_true, if_false]

def c6wOther : CacheEntry :=
  { question := some "天気は？", response_text := "晴れです",
    emotion := some "Joy", audio_b64 := some "QQ==",
    norm_key := some (normalize_text "天気は？"), source := some "master" }

def c6wState : WorkerState :=
  { cache := [c6wOther], embeddings := none, embedderAvailable := false }

/-- Witness for the amended C6: learning a question with a fresh key makes
the immediate lookup exact-hit and serve the new entry at index 1. -/
theorem c6_learn_then_lookup_witness :
    (∀ e ∈ c6wState.cache, e.norm_key ≠ some (normalize_text "祭りはいつ？")) ∧
    findExactIdx (learnStep c6wState "祭りはいつ？" "夏です" "Joy" "Qg==" none).cache
      (normalize_text "祭りはいつ？") = some 1 ∧
    cacheCheck (learnStep c6wState "祭りはいつ？" "夏です" "Joy" "Qg==" none)
      "祭りはいつ？" none = CacheCheck.serve 1 :=
  ⟨by decide,
   (c6_learn_then_lookup c6wState "祭りはいつ？" "夏です" "Joy" "Qg==" none none
     (by decide)).1,
   (c6_learn_then_lookup c6wState "祭りはいつ？" "夏です" "Joy" "Qg==" none none
     (by decide)).2.2 (by decide)⟩

/-! Claim C7. -/

def c7Entry : CacheEntry :=
  { question := some "！！！", response_text := "ビックリしました",
    emotion := some "Neutral", audio_b64 := some "QQ==",
    norm_key := some "", source := some "extra" }

def c7State : WorkerState :=
  { cache := [c7Entry], embeddings := none, embedderAvailable := false }

/-- Counterexample to claim C7: the empty normalized key IS treated as a
cache key match — a query normalizing to the empty string exact-hits an
entry whose stored `norm_key` is empty (as arises from learning a
punctuation-only question such as "！！！"), so the claimed empty-key guard
does not exist in the code. -/
theorem c7_empty_query_matches_cex :
    normalize_text "。。。" = "" ∧
    normalize_text "！！！" = "" ∧
    findExactIdx c7State.cache (normalize_text "。。。") = some 0 ∧
    cacheCheck c7State "。。。" none = CacheCheck.serve 0 := by
  refine ⟨by decide, by decide, by decide, by decide⟩

/-- Claim C7 (amended): empty or whitespace-only input normalizes to the
empty string; the lookup applies no empty-key guard — a query whose
normalized form is empty exact-matches precisely when some loaded entry has
the empty string as its `norm_key` (entries without a `norm_key` never
match any query). -/
theorem c7_empty_normalization (s : String) (cache : List CacheEntry)
    (hs : s.data.all isPythonSpace = true) :
    normalize_text s = "" ∧
    ((findExactIdx cache "").isSome = true ↔ ∃ e ∈ cache, e.norm_key = some "") := by
  constructor
  · unfold normalize_text
    by_cases he : s.isEmpty
    · rw [if_pos he]
    · rw [if_neg he]
      have hall : ∀ c ∈ s.data, isPythonSpace c = true := List.all_eq_true.mp hs
      have hfil : s.data.filter (fun c => !(isStripChar c)) = [] := by
        rw [List.filter_eq_nil_iff]
        intro c hc
        have hstrip : isStripChar c = true := by
          unfold isStripChar
          rw [hall c hc]
          simp
        simp [hstrip]
      rw [hfil]
  · exact findExactIdxAux_isSome_iff "" 0 cache

def c7wEntry : CacheEntry :=
  { question := some "天気は？", response_text := "晴れです",
    emotion := some "Joy", audio_b64 := some "QQ==",
    norm_key := some (normalize_text "天気は？"), source := some "master" }

/-- Witness for the amended C7 at a whitespace-only input and a cache whose
single entry has a non-empty key (so the empty query matches nothing). -/
theorem c7_empty_normalization_witness :
    " 　\n".data.all isPythonSpace = true ∧
    normalize_text " 　\n" = "" ∧
    ((findExactIdx [c7wEntry] "").isSome = true ↔ ∃ e ∈ [c7wEntry], e.norm_key = some "") :=
  ⟨by decide,
   (c7_empty_normalization " 　\n" [c7wEntry] (by decide)).1,
   (c7_empty_normalization " 　\n" [c7wEntry] (by decide)).2⟩

/-! Claim C8. -/

def c8State : WorkerState :=
  { cache := [], embeddings := some [], embedderAvailable := true }

def c8Item : QueueItem :=
  { message_text := "質問です", author_name := some "視聴者",
    source := some "direct", is_initial_greeting := none }

def c8Oracle : Oracles :=
  { vecSearch := none, gen := Except.ok ("良い答えです", "Neutral"),
    synth := Except.ok "QQ==", embedLearn := none }

/-- Counterexample to claim C8: when embedding the newly learned question
fails, the dispatcher appends the entry but leaves the index unchanged, so
after that learn the index (length 0) is no longer aligned 1:1 with the
entries having a question (count 1). -/
theorem c8_index_alignment_cex :
    countQ (processItem c8State c8Item c8Oracle).state.cache = 1 ∧
    embLen (processItem c8State c8Item c8Oracle).state = 0 ∧
    embLen (processItem c8State c8Item c8Oracle).state ≠
      countQ (processItem c8State c8Item c8Oracle).state.cache := by
  refine ⟨by decide, by decide, by decide⟩

/-- Claim C8 (amended): after the startup build succeeds the index length
equals the number of entries with a question, and every learn of a non-empty
question whose embedding succeeds preserves that equality; a failed embed
leaves the index unchanged and breaks the alignment. -/
theorem c8_index_alignment (st st2 : WorkerState) (f : String → List ℚ)
    (q reply emo audio : String) (v : List ℚ)
    (hq : q ≠ "")
    (hav : st2.embedderAvailable = true)
    (hinv : embLen st2 = countQ st2.cache) :
    embLen (buildIndex st f) = countQ (buildIndex st f).cache ∧
    embLen (learnStep st2 q reply emo audio (some v)) =
      countQ (learnStep st2 q reply emo audio (some v)).cache := by
  constructor
  · unfold buildIndex
    by_cases h0 : ((st.cache.filter hasTruthyQuestion).map (fun e => e.question.getD "")).isEmpty
    · rw [if_pos h0]
      have : st.cache.filter hasTruthyQuestion = [] := by
        have := List.isEmpty_iff.mp h0
        simpa [List.map_eq_nil_iff] using this
      simp [embLen, countQ, this]
    · rw [if_neg h0]
      simp [embLen, countQ, List.length_map]
  · have hqe : q.isEmpty = false := by
      cases hqe : q.isEmpty
      · rfl
      · exact absurd ((String.isEmpty_iff q).mp hqe) hq
    have hnewq : hasTruthyQuestion (learnedEntry q reply emo audio) = true := by
      simp [hasTruthyQuestion, learnedEntry, hqe]
    have hcq : countQ (learnStep st2 q reply emo audio (some v)).cache =
        countQ st2.cache + 1 := by
      show countQ (st2.cache ++ [learnedEntry q reply emo audio]) = countQ st2.cache + 1
      simp [countQ, List.filter_append, hnewq]
    rw [hcq]
    cases hemb : st2.embeddings with
    | none =>
      have h0 : countQ st2.cache = 0 := by
        rw [← hinv]
        simp [embLen, hemb]
      rw [h0]
      simp [learnStep, embLen, hav, hemb]
    | some l =>
      have hl : l.length = countQ st2.cache := by
        rw [← hinv]
        simp [embLen, hemb]
      rw [← hl]
      simp [learnStep, embLen, hav, hemb]

def c8wEntry : CacheEntry :=
  { question := some "島の名物は？", response_text := "かまぼこです",
    emotion := some "Joy", audio_b64 := some "QQ==",
    norm_key := some (normalize_text "島の名物は？"), source := some "master" }

def c8wState : WorkerState :=
  { cache := [c8wEntry], embeddings := some [[1]], embedderAvailable := true }

/-- Witness for the amended C8: a successful build over one questioned entry
and a successful learn both keep the index aligned. -/
theorem c8_index_alignment_witness :
    embLen c8wState = countQ c8wState.cache ∧
    embLen (buildIndex c8wState (fun _ => [2])) =
      countQ (buildIndex c8wState (fun _ => [2])).cache ∧
    embLen (learnStep c8wState "新しい質問" "答え" "Neutral" "Qg==" (some [3])) =
      countQ (learnStep c8wState "新しい質問" "答え" "Neutral" "Qg==" (some [3])).cache :=
  ⟨by decide,
   (c8_index_alignment c8wState c8wState (fun _ => [2]) "新しい質問" "答え" "Neutral" "Qg=="
     [3] (by decide) (by decide) (by decide)).1,
   (c8_index_alignment c8wState c8wState (fun _ => [2]) "新しい質問" "答え" "Neutral" "Qg=="
     [3] (by decide) (by decide) (by decide)).2⟩

/-! Claim C9. -/

/-- Claim C9: the `ChatItem` dataclass declares no `is_initial_greeting`
field, so the level-3 greeting construction in `app.py` — which passes the
`is_initial_greeting` keyword — raises a `TypeError` instead of building the
item, while the dispatcher only ever reads the flag defensively with a
default of `false` (absent attribute reads as `false`). -/
theorem c9_greeting_construction_type_error :
    buildChatItem greetingCallKwargs =
      Except.error "TypeError: __init__() got an unexpected keyword argument" ∧
    chatItemFields.contains "is_initial_greeting" = false ∧
    ∀ c : ChatItem, isGreeting c.toQueueItem = false := by
  refine ⟨rfl, by decide, fun c => rfl⟩

/-! Claim C10. -/

def c10Entry : CacheEntry :=
  { question := some "馬は元気ですか", response_text := "馬はとても元気です",
    emotion := some "Joy", audio_b64 := none,
    norm_key := some (normalize_text "馬は元気ですか"), source := some "extra" }

def c10State : WorkerState :=
  { cache := [c10Entry], embeddings := none, embedderAvailable := false }

def c10Item : QueueItem :=
  { message_text := "馬は元気ですか", author_name := some "視聴者",
    source := some "direct", is_initial_greeting := none }

def c10Oracle : Oracles :=
  { vecSearch := none, gen := Except.error "never called",
    synth := Except.ok "TGF6eUF1ZGlv", embedLearn := none }

/-- Claim C10: on a cache hit whose entry lacks audio and whose lazy
synthesis succeeds, the fresh audio is returned in the `Result` but never
written back into the matched entry — the whole worker state is unchanged —
and re-processing the identical request from the resulting state performs
the synthesis again (one synthesis call each time). -/
theorem c10_hit_no_writeback (st : WorkerState) (item : QueueItem) (o : Oracles)
    (i : Nat) (e : CacheEntry) (a : String)
    (hc : dispatchCheck st item o = CacheCheck.serve i)
    (he : st.cache[i]? = some e)
    (hl : lacksAudio e = true)
    (hs : o.synth = Except.ok a) :
    (processItem st item o).state = st ∧
    (processItem st item o).state.cache[i]? = some e ∧
    (processItem st item o).synthCalls = 1 ∧
    (processItem st item o).events = [Event.result (servedPayloadWith item e a)] ∧
    processItem (processItem st item o).state item o = processItem st item o := by
  have hp := processItem_serve st item o i hc
  have hsv := servePath_lazy_ok st item o i e a he hl hs
  have hstate : (processItem st item o).state = st := by
    rw [hp, hsv]
    rfl
  refine ⟨hstate, ?_, by rw [hp, hsv]; rfl, by rw [hp, hsv]; rfl, by rw [hstate]⟩
  rw [hstate]
  exact he

/-- Witness for C10: the audio-less entry stays audio-less after the hit and
a second identical hit synthesizes again. -/
theorem c10_hit_no_writeback_witness :
    dispatchCheck c10State c10Item c10Oracle = CacheCheck.serve 0 ∧
    c10State.cache[0]? = some c10Entry ∧
    lacksAudio c10Entry = true ∧
    (processItem c10State c10Item c10Oracle).state = c10State ∧
    (processItem c10State c10Item c10Oracle).events =
      [Event.result (servedPayloadWith c10Item c10Entry "TGF6eUF1ZGlv")] ∧
    processItem (processItem c10State c10Item c10Oracle).state c10Item c10Oracle =
      processItem c10State c10Item c10Oracle :=
  ⟨by decide, by decide, by decide,
   (c10_hit_no_writeback c10State c10Item c10Oracle 0 c10Entry "TGF6eUF1ZGlv"
     (by decide) (by decide) (by decide) rfl).1,
   (c10_hit_no_writeback c10State c10Item c10Oracle 0 c10Entry "TGF6eUF1ZGlv"
     (by decide) (by decide) (by decide) rfl).2.2.2.1,
   (c10_hit_no_writeback c10State c10Item c10Oracle 0 c10Entry "TGF6eUF1ZGlv"
     (by decide) (by decide) (by decide) rfl).2.2.2.2⟩
